import Mathlib

/-!
Shallow embedding of the siglent instrument drivers
(src/siglent/common.py, src/siglent/power_supplies.py,
src/siglent/spectrum_analyzers.py).

Each Python accessor is modelled as a pure function that returns the list
of SCPI operations it issues on the VISA transport, in order, together
with its outcome.  Replies from the instrument are passed in as explicit
arguments.  Python assertion failures and exceptions are modelled as
`Except.error`; because the source validates before any I/O, a failing
accessor returns an empty operation list.  Numeric values travel as `ℚ`
(the concrete bounds and enum values in the source are all exactly
representable decimals, so Python float comparison coincides with `ℚ`
comparison on them).
-/

deriving instance DecidableEq for Except

namespace Siglent

/-- One operation issued on the VISA message-based transport:
a write (no reply expected), a query (reply expected), or a binary-values
query (`query_binary_values` with a given number of data points). -/
inductive Op where
  | write (cmd : String)
  | query (cmd : String)
  | queryBinary (cmd : String) (dataPoints : Nat)
  deriving DecidableEq

/-- Models the Python `str.strip()` used by the source on instrument
replies: drop whitespace characters from both ends of the string.
(Operates on the character list so that it evaluates by kernel
reduction.) -/
def pyStrip (s : String) : String :=
  String.mk (((s.data.dropWhile Char.isWhitespace).reverse.dropWhile
    Char.isWhitespace).reverse)

/-- Models the Python `int(str)` conversion of a decimal string: optional
surrounding whitespace, optional sign, then one or more digits.  Returns
`none` where Python raises `ValueError`. -/
def digitsToNat (cs : List Char) : Option Nat :=
  if cs.isEmpty then none
  else if cs.all Char.isDigit then
    some (cs.foldl (fun a c => 10 * a + (c.toNat - 48)) 0)
  else none

def pyIntChars : List Char → Option Int
  | '-' :: rest => (digitsToNat rest).map (fun m => -(m : Int))
  | '+' :: rest => (digitsToNat rest).map (fun m => (m : Int))
  | cs => (digitsToNat cs).map (fun m => (m : Int))

def pyInt (s : String) : Option Int :=
  pyIntChars (pyStrip s).data

/-- Embedding of `MessageResource.block_until_complete`
(src/siglent/common.py lines 29-33): it queries `*OPC?`, then asserts
that the stripped reply equals `"1"`.  The query is issued before the
assertion is checked. -/
def block_until_complete (reply : String) : List Op × Except String Unit :=
  ([Op.query "*OPC?"],
    if pyStrip reply = "1" then Except.ok ()
    else Except.error "*OPC? returned something unexpected")

/-! ## Power supply (src/siglent/power_supplies.py)

`SPD3303X.__getitem__` (lines 5-9) asserts the channel is 1 or 2 and then
issues the channel-select command with `self._resource.query(...)` — a
query, which sends the command and then reads a reply — not `write`. -/

def psu_getitem (channel : Int) : List Op × Except String Unit :=
  if channel = 1 ∨ channel = 2 then
    ([Op.query ("INST CH" ++ toString channel)], Except.ok ())
  else ([], Except.error "Channel must be either 1 or 2")

/-! ## Spectrum analyzer: range-validated setters
(src/siglent/spectrum_analyzers.py)

Each setter runs a Python `assert` on its argument and only then writes
one command; on assertion failure nothing is written.  The numeral text
inside the written command abstracts the Python float formatting (the
claims do not depend on it). -/

/-- Embedding of the `ref_level` setter (lines 135-139). -/
def ref_level_set (level_dbm : ℚ) : List Op × Except String Unit :=
  if -100 ≤ level_dbm ∧ level_dbm ≤ 30 then
    ([Op.write (":DISP:WIND:TRAC:Y:RLEV " ++ toString level_dbm ++ " DBM")],
      Except.ok ())
  else ([], Except.error "Level must be between -100 and 30 dBm")

/-- Embedding of the `span` setter (lines 148-154); 3.2e9 = 3200000000. -/
def span_set (freq_hz : ℚ) : List Op × Except String Unit :=
  if (100 ≤ freq_hz ∧ freq_hz ≤ 3200000000) ∨ freq_hz = 0 then
    ([Op.write (":FREQ:SPAN " ++ toString freq_hz ++ " Hz")], Except.ok ())
  else ([], Except.error "Span must be between 100 Hz and 3.2 GHz or 0")

/-- Embedding of the `freq_center` setter (lines 161-165). -/
def freq_center_set (freq_hz : ℚ) : List Op × Except String Unit :=
  if 0 ≤ freq_hz ∧ freq_hz ≤ 3200000000 then
    ([Op.write (":FREQ:CENT " ++ toString freq_hz ++ " Hz")], Except.ok ())
  else ([], Except.error "Center frequency must be between 0 and 3.2 GHz")

/-- Embedding of the `freq_stop` setter (lines 177-181). -/
def freq_stop_set (freq_hz : ℚ) : List Op × Except String Unit :=
  if 0 ≤ freq_hz ∧ freq_hz ≤ 3200000000 then
    ([Op.write (":FREQ:STOP " ++ toString freq_hz ++ " Hz")], Except.ok ())
  else ([], Except.error "Stop frequency must be between 0 and 3.2 GHz")

/-- Embedding of the `attenuation` setter (lines 195-199). -/
def attenuation_set (db : ℚ) : List Op × Except String Unit :=
  if 0 ≤ db ∧ db ≤ 51 then
    ([Op.write (":POW:ATT " ++ toString db)], Except.ok ())
  else ([], Except.error "Attenuation must be between 0 and 51 dB")

/-- The lower sweep-time bound from the source, 450e-6 seconds, as the
exact rational 450/1000000. -/
def sweepTimeLo : ℚ := mkRat 450 1000000

/-- Embedding of the `sweep_time` setter (lines 250-254); 1.5e3 = 1500. -/
def sweep_time_set (time : ℚ) : List Op × Except String Unit :=
  if sweepTimeLo ≤ time ∧ time ≤ 1500 then
    ([Op.write (":SWE:TIME " ++ toString time ++ "s")], Except.ok ())
  else ([], Except.error "Time must be between 450us and 1.5ks")

/-- Embedding of the `Trace.averages` setter (lines 290-294). -/
def averages_set (traceIdx : Nat) (n : Int) : List Op × Except String Unit :=
  if 1 ≤ n ∧ n ≤ 999 then
    ([Op.write (":AVER:TRAC" ++ toString traceIdx ++ ":COUN " ++ toString n)],
      Except.ok ())
  else ([], Except.error "n must be between 1 and 999")

/-! ## Spectrum analyzer: channel selectors -/

/-- Embedding of `SSA3000X.trace` (lines 260-263) together with
`Trace.__init__` (lines 268-273): after the range assert passes, the
constructed `Trace` writes `:FORM REAL`. -/
def sa_trace (t : Int) : List Op × Except String Unit :=
  if 1 ≤ t ∧ t ≤ 4 then ([Op.write ":FORM REAL"], Except.ok ())
  else ([], Except.error "Trace is either 1,2,3, or 4")

/-- Embedding of `SSA3000X.marker` (lines 342-345) together with
`Marker.__init__` (lines 350-353), which issues nothing. -/
def sa_marker (m : Int) : List Op × Except String Unit :=
  if 1 ≤ m ∧ m ≤ 8 then ([], Except.ok ())
  else ([], Except.error "Marker number is 1-8")

/-! ## Enumerated settings (src/siglent/spectrum_analyzers.py lines 25-122)

Each Python `Enum` becomes an inductive type with a `value` function
giving the on-wire token, and an `ofValue`/`ofToken` partial inverse that
mirrors the value-to-member lookup that `Enum.__call__` performs (raising
`ValueError`, modelled as `none`, for a value not in the map). -/

/-- The `Bandwidth` enum (lines 25-41).  In the source, the member
`HZ_300 = 30` repeats the value of `HZ_30 = 30`; the Python `Enum` class
therefore makes `HZ_300` an alias of the canonical member `HZ_30`, not a
distinct member, so the inductive has the twelve canonical members and
`HZ_300` is a definitional alias below.  The numeric values travel as `ℚ`:
the setter formats `bw.value` into the command and the getter parses the
reply with `float`, both exact on these decimal values. -/
inductive Bandwidth where
  | HZ_1 | HZ_3 | HZ_10 | HZ_30 | HZ_100
  | KHZ_1 | KHZ_3 | KHZ_10 | KHZ_30 | KHZ_100 | KHZ_300
  | MHZ_1
  deriving DecidableEq

/-- Alias member: source line 33 gives `HZ_300` the duplicate value 30,
so Python aliases it to `HZ_30`. -/
def Bandwidth.HZ_300 : Bandwidth := Bandwidth.HZ_30

def Bandwidth.value : Bandwidth → ℚ
  | .HZ_1 => 1
  | .HZ_3 => 3
  | .HZ_10 => 10
  | .HZ_30 => 30
  | .HZ_100 => 100
  | .KHZ_1 => 1000
  | .KHZ_3 => 3000
  | .KHZ_10 => 10000
  | .KHZ_30 => 30000
  | .KHZ_100 => 100000
  | .KHZ_300 => 300000
  | .MHZ_1 => 1000000

/-- The closed set of on-wire bandwidth values (the keys of the Python
value-to-member map). -/
def bandwidthWireValues : List ℚ :=
  [1, 3, 10, 30, 100, 1000, 3000, 10000, 30000, 100000, 300000, 1000000]

/-- Value-to-member lookup of the `Bandwidth` enum, branch per distinct
value in declaration order. -/
def Bandwidth.ofValue (v : ℚ) : Option Bandwidth :=
  if v = 1 then some .HZ_1
  else if v = 3 then some .HZ_3
  else if v = 10 then some .HZ_10
  else if v = 30 then some .HZ_30
  else if v = 100 then some .HZ_100
  else if v = 1000 then some .KHZ_1
  else if v = 3000 then some .KHZ_3
  else if v = 10000 then some .KHZ_10
  else if v = 30000 then some .KHZ_30
  else if v = 100000 then some .KHZ_100
  else if v = 300000 then some .KHZ_300
  else if v = 1000000 then some .MHZ_1
  else none

/-- The `AverageType` enum (lines 43-48). -/
inductive AverageType where
  | LOG_POWER | POWER | VOLTAGE
  deriving DecidableEq

def AverageType.value : AverageType → String
  | .LOG_POWER => "LOGP"
  | .POWER => "POW"
  | .VOLTAGE => "VOLT"

def averageTypeTokens : List String := ["LOGP", "POW", "VOLT"]

def AverageType.ofToken (s : String) : Option AverageType :=
  if s = "LOGP" then some .LOG_POWER
  else if s = "POW" then some .POWER
  else if s = "VOLT" then some .VOLTAGE
  else none

/-- The `TraceMode` enum (lines 51-67). -/
inductive TraceMode where
  | WRITE | MAX_HOLD | MIN_HOLD | VIEW | AVERAGE
  deriving DecidableEq

def TraceMode.value : TraceMode → String
  | .WRITE => "WRIT"
  | .MAX_HOLD => "MAXH"
  | .MIN_HOLD => "MINH"
  | .VIEW => "VIEW"
  | .AVERAGE => "AVER"

def traceModeTokens : List String := ["WRIT", "MAXH", "MINH", "VIEW", "AVER"]

def TraceMode.ofToken (s : String) : Option TraceMode :=
  if s = "WRIT" then some .WRITE
  else if s = "MAXH" then some .MAX_HOLD
  else if s = "MINH" then some .MIN_HOLD
  else if s = "VIEW" then some .VIEW
  else if s = "AVER" then some .AVERAGE
  else none

/-- The `DetectionMode` enum (lines 70-101). -/
inductive DetectionMode where
  | NEGATIVE | POSITIVE | SAMPLE | AVERAGE | NORMAL | QUASI
  deriving DecidableEq

def DetectionMode.value : DetectionMode → String
  | .NEGATIVE => "NEG"
  | .POSITIVE => "POS"
  | .SAMPLE => "SAMP"
  | .AVERAGE => "AVER"
  | .NORMAL => "NORMAL"
  | .QUASI => "QUAS"

def detectionModeTokens : List String :=
  ["NEG", "POS", "SAMP", "AVER", "NORMAL", "QUAS"]

def DetectionMode.ofToken (s : String) : Option DetectionMode :=
  if s = "NEG" then some .NEGATIVE
  else if s = "POS" then some .POSITIVE
  else if s = "SAMP" then some .SAMPLE
  else if s = "AVER" then some .AVERAGE
  else if s = "NORMAL" then some .NORMAL
  else if s = "QUAS" then some .QUASI
  else none

/-- The `MarkerMode` enum (lines 104-122). -/
inductive MarkerMode where
  | POSITION | DELTA | FIXED | OFF
  deriving DecidableEq

def MarkerMode.value : MarkerMode → String
  | .POSITION => "POS"
  | .DELTA => "DELT"
  | .FIXED => "FIX"
  | .OFF => "OFF"

def markerModeTokens : List String := ["POS", "DELT", "FIX", "OFF"]

def MarkerMode.ofToken (s : String) : Option MarkerMode :=
  if s = "POS" then some .POSITION
  else if s = "DELT" then some .DELTA
  else if s = "FIX" then some .FIXED
  else if s = "OFF" then some .OFF
  else none

/-! ## Enumerated-setting accessors

A setter returns the operations it writes together with the token it put
on the wire (which the instrument is assumed to store and echo); a getter
takes the instrument reply and returns the issued query together with the
parsed result, `Except.error` modelling the `ValueError` that the Python
enum constructor raises on an unknown token. -/

def enumParseErr : String := "ValueError: not a member of the enum"

/-- Embedding of the `rbw` setter (lines 218-221). -/
def rbw_set (bw : Bandwidth) : List Op × ℚ :=
  ([Op.write (":BWID " ++ toString bw.value)], bw.value)

/-- Embedding of the `rbw` getter (lines 213-216):
`Bandwidth(float(query(":BWID?")))`, taking the float-parsed reply. -/
def rbw_get (v : ℚ) : List Op × Except String Bandwidth :=
  ([Op.query ":BWID?"],
    match Bandwidth.ofValue v with
    | some b => Except.ok b
    | none => Except.error enumParseErr)

/-- Embedding of the `vbw` setter (lines 228-231). -/
def vbw_set (bw : Bandwidth) : List Op × ℚ :=
  ([Op.write (":BWID:VID " ++ toString bw.value)], bw.value)

/-- Embedding of the `vbw` getter (lines 223-226). -/
def vbw_get (v : ℚ) : List Op × Except String Bandwidth :=
  ([Op.query ":BWID:VID?"],
    match Bandwidth.ofValue v with
    | some b => Except.ok b
    | none => Except.error enumParseErr)

/-- Embedding of the `average_type` setter (lines 238-241). -/
def average_type_set (t : AverageType) : List Op × String :=
  ([Op.write (":AVER:TYPE " ++ t.value)], t.value)

/-- Embedding of the `average_type` getter (lines 233-236):
`AverageType(query(":AVER:TYPE?").strip())`. -/
def average_type_get (reply : String) : List Op × Except String AverageType :=
  ([Op.query ":AVER:TYPE?"],
    match AverageType.ofToken (pyStrip reply) with
    | some t => Except.ok t
    | none => Except.error enumParseErr)

/-- Embedding of the `Trace.mode` setter (lines 280-283). -/
def trace_mode_set (n : Nat) (m : TraceMode) : List Op × String :=
  ([Op.write (":TRAC" ++ toString n ++ ":MODE " ++ m.value)], m.value)

/-- Embedding of the `Trace.mode` getter (lines 275-278). -/
def trace_mode_get (n : Nat) (reply : String) :
    List Op × Except String TraceMode :=
  ([Op.query (":TRAC" ++ toString n ++ ":MODE?")],
    match TraceMode.ofToken (pyStrip reply) with
    | some m => Except.ok m
    | none => Except.error enumParseErr)

/-- The attributes that `Trace.__init__` (lines 268-273) assigns on a
`Trace` instance. -/
def traceInstanceAttrs : List String := ["_n", "_parent", "_resource"]

def traceAttrErr : String :=
  "AttributeError: Trace object has no attribute resource"

/-- Embedding of the `Trace.detection_mode` setter (lines 310-313).  The
source body reads `self.resource`, an attribute never assigned on the
instance (only `_n`, `_parent` and `_resource` are), so Python raises
`AttributeError` before any command is written. -/
def detection_mode_set (n : Nat) (mode : DetectionMode) :
    List Op × Except String String :=
  if "resource" ∈ traceInstanceAttrs then
    ([Op.write (":DET:TRAC" ++ toString n ++ " " ++ mode.value)],
      Except.ok mode.value)
  else ([], Except.error traceAttrErr)

/-- Embedding of the `Trace.detection_mode` getter (lines 305-308). -/
def detection_mode_get (n : Nat) (reply : String) :
    List Op × Except String DetectionMode :=
  ([Op.query (":DET:TRAC" ++ toString n ++ "?")],
    match DetectionMode.ofToken (pyStrip reply) with
    | some m => Except.ok m
    | none => Except.error enumParseErr)

/-- Embedding of the `Marker.mode` setter (lines 372-375). -/
def marker_mode_set (n : Nat) (m : MarkerMode) : List Op × String :=
  ([Op.write (":CALC:MARK" ++ toString n ++ ":MODE " ++ m.value)], m.value)

/-- Embedding of the `Marker.mode` getter (lines 365-370), parsed result
only (the full property machinery for markers is modelled further down
for the shadowing analysis). -/
def marker_mode_parse (reply : String) : Except String MarkerMode :=
  match MarkerMode.ofToken (pyStrip reply) with
  | some m => Except.ok m
  | none => Except.error enumParseErr

/-! ## Round trips: write a member, let the instrument echo the stored
token, read it back. -/

def rbw_roundtrip (b : Bandwidth) : Except String Bandwidth :=
  (rbw_get (rbw_set b).2).2

def vbw_roundtrip (b : Bandwidth) : Except String Bandwidth :=
  (vbw_get (vbw_set b).2).2

def average_type_roundtrip (t : AverageType) : Except String AverageType :=
  (average_type_get (average_type_set t).2).2

def trace_mode_roundtrip (n : Nat) (m : TraceMode) : Except String TraceMode :=
  (trace_mode_get n (trace_mode_set n m).2).2

def marker_mode_roundtrip (n : Nat) (m : MarkerMode) :
    Except String MarkerMode :=
  marker_mode_parse (marker_mode_set n m).2

def detection_mode_roundtrip (n : Nat) (m : DetectionMode) :
    Except String DetectionMode :=
  match (detection_mode_set n m).2 with
  | Except.ok tok => (detection_mode_get n tok).2
  | Except.error e => Except.error e

/-! ## Binary trace read (src/siglent/spectrum_analyzers.py lines 315-334)

`Trace.data` restarts the sweep, blocks on `*OPC?`, then calls
`query_binary_values("TRAC:DATA? n", datatype d, header_fmt empty,
data_points NUM_DATA_POINTS)`: pyvisa reads `8 * NUM_DATA_POINTS` raw
bytes (no header, little-endian by default) and unpacks them into
`NUM_DATA_POINTS` 64-bit values.  The IEEE-754 float64 entries are
modelled by their 64-bit words assembled from the eight little-endian
bytes, so value equality is bit-pattern equality; payload entries are the
byte values 0-255 coming off the wire. -/

def NUM_DATA_POINTS : Nat := 751

/-- Assemble eight bytes, least significant first, into one word. -/
def wordOfBytesLE (bs : List Nat) : Nat :=
  bs.foldr (fun b acc => b + 256 * acc) 0

/-- Unpack `n` consecutive little-endian 64-bit words from a byte list;
`none` when the payload is too short (pyvisa fails the whole read). -/
def decodeWordsLE : Nat → List Nat → Option (List Nat)
  | 0, _ => some []
  | n + 1, bs =>
      if 8 ≤ bs.length then
        (decodeWordsLE n (bs.drop 8)).map
          (fun ws => wordOfBytesLE (bs.take 8) :: ws)
      else none

/-- The binary-read command string of line 330. -/
def tracDataCmd (n : Nat) : String := "TRAC:DATA? " ++ toString n

/-- Embedding of the `Trace.data` property (lines 315-334): write
`:INIT:REST` (`sweep_restart`, line 256-258), query `*OPC?`
(`block_until_complete`), and only if its stripped reply is `"1"` issue
the binary query and decode the payload. -/
def trace_data (n : Nat) (opcReply : String) (payload : List Nat) :
    List Op × Except String (List Nat) :=
  if pyStrip opcReply = "1" then
    ([Op.write ":INIT:REST", Op.query "*OPC?",
      Op.queryBinary (tracDataCmd n) NUM_DATA_POINTS],
      match decodeWordsLE NUM_DATA_POINTS payload with
      | some ws => Except.ok ws
      | none => Except.error "binary reply shorter than expected")
  else
    ([Op.write ":INIT:REST", Op.query "*OPC?"],
      Except.error "*OPC? returned something unexpected")

theorem decodeWordsLE_length :
    ∀ (n : Nat) (payload ws : List Nat),
      decodeWordsLE n payload = some ws → ws.length = n := by
  intro n
  induction n with
  | zero =>
      intro payload ws h
      simp [decodeWordsLE] at h
      simp [h.symm]
  | succ k ih =>
      intro payload ws h
      rw [decodeWordsLE] at h
      split at h
      · rcases Option.map_eq_some'.mp h with ⟨ws', hws', rfl⟩
        simp [ih _ _ hws']
      · exact absurd h (by simp)

/-! ## Marker property shadowing
(src/siglent/spectrum_analyzers.py lines 347-405)

The `Marker` class body executes top to bottom binding class attributes;
a later binding of the same name shadows the earlier one.  Property
getters are modelled as functions from the marker index and the
instrument reply to the issued operations and the parsed result; setters
are identified by tags (their bodies do not matter for the claims).
`property.setter(f)` returns a new property object keeping the decorated
property's getter and installing `f` as the setter, bound to the name of
the decorated function. -/

/-- The dynamically-typed result of a marker property read. -/
inductive MarkerRead where
  | bool (b : Bool)
  | int (i : Int)
  | mode (m : MarkerMode)
  deriving DecidableEq

/-- Identity tags for the marker setter functions appearing in the class
body (`enabled` at lines 360-363, `mode` at 372-375, `trace` at
382-385). -/
inductive MarkerSetterTag where
  | enabledSet | modeSet | traceSet
  deriving DecidableEq

/-- A Python `property` object: a getter and an optional setter. -/
structure PyProperty where
  fget : Nat → String → List Op × Except String MarkerRead
  fset : Option MarkerSetterTag

/-- Embedding of the `Marker.enabled` getter (lines 355-358):
`int(query(":CALC:MARK n :STAT?")) == 1`. -/
def marker_enabled_get (n : Nat) (reply : String) :
    List Op × Except String MarkerRead :=
  ([Op.query (":CALC:MARK" ++ toString n ++ ":STAT?")],
    match pyInt reply with
    | some i => Except.ok (MarkerRead.bool (i == 1))
    | none => Except.error "ValueError: invalid literal for int")

/-- Embedding of the `Marker.mode` getter (lines 365-370) in the marker
property machinery. -/
def marker_mode_get (n : Nat) (reply : String) :
    List Op × Except String MarkerRead :=
  ([Op.query (":CALC:MARK" ++ toString n ++ ":MODE?")],
    match MarkerMode.ofToken (pyStrip reply) with
    | some m => Except.ok (MarkerRead.mode m)
    | none => Except.error enumParseErr)

/-- Embedding of the `Marker.trace` getter function defined at lines
377-380: `int(query(":CALC:MARK n :TRAC?"))`. -/
def marker_trace_assoc_get (n : Nat) (reply : String) :
    List Op × Except String MarkerRead :=
  ([Op.query (":CALC:MARK" ++ toString n ++ ":TRAC?")],
    match pyInt reply with
    | some i => Except.ok (MarkerRead.int i)
    | none => Except.error "ValueError: invalid literal for int")

/-- One statement of the class body that binds a property name:
`defGetter name g` models `@property def name` (binds `name` to a
property with getter `g` and no setter), and `defSetter decorated name s`
models `@decorated.setter def name` (looks up the property currently
bound to `decorated`, keeps its getter, installs `s` as setter, and binds
the result to `name`). -/
inductive ClassStmt where
  | defGetter (name : String)
      (g : Nat → String → List Op × Except String MarkerRead)
  | defSetter (decorated : String) (name : String) (s : MarkerSetterTag)

/-- Execute the class-body statements in order over the class attribute
environment (an association list, most recent binding first; `lookup`
therefore returns the binding in effect).  Referencing an unbound
decorated name would raise `NameError` in Python; it never happens in
this class body, so that case leaves the environment unchanged. -/
def execClassBody : List ClassStmt → List (String × PyProperty) →
    List (String × PyProperty)
  | [], env => env
  | ClassStmt.defGetter name g :: rest, env =>
      execClassBody rest ((name, ⟨g, none⟩) :: env)
  | ClassStmt.defSetter dec name s :: rest, env =>
      match env.lookup dec with
      | some p => execClassBody rest ((name, ⟨p.fget, some s⟩) :: env)
      | none => execClassBody rest env

/-- The property-binding statements of the `Marker` class body in source
order.  The decorator on the `trace` setter function at line 382 is
`@enabled.setter`, not `@trace.setter`.  (The remaining class-body
statements — `peak`, `x`, `y` — bind other names and cannot affect these
three bindings.) -/
def markerBody : List ClassStmt :=
  [ClassStmt.defGetter "enabled" marker_enabled_get,
   ClassStmt.defSetter "enabled" "enabled" MarkerSetterTag.enabledSet,
   ClassStmt.defGetter "mode" marker_mode_get,
   ClassStmt.defSetter "mode" "mode" MarkerSetterTag.modeSet,
   ClassStmt.defGetter "trace" marker_trace_assoc_get,
   ClassStmt.defSetter "enabled" "trace" MarkerSetterTag.traceSet]

/-- The class attribute environment after the `Marker` body executes. -/
def markerClassDict : List (String × PyProperty) :=
  execClassBody markerBody []

/-! ## Claim theorems -/

/-- C2 (counterexample): the claim says `block_until_complete` fails for
every reply other than the literal `"1"`, naming the untrimmed `"1\n"` as
a failing case; but the source strips the reply before comparing, so the
reply `"1\n"`, which is not the literal `"1"`, succeeds. -/
theorem block_until_complete_claim_counterexample :
    (block_until_complete "1\n").2 = Except.ok () ∧ "1\n" ≠ "1" :=
  ⟨rfl, by decide⟩

/-- C2 (amended): `block_until_complete` issues exactly the `*OPC?` query
and succeeds if and only if the whitespace-stripped reply equals `"1"`;
in particular `"0"` and `""` fail, while the untrimmed `"1\n"`
succeeds. -/
theorem block_until_complete_spec (reply : String) :
    (block_until_complete reply).1 = [Op.query "*OPC?"] ∧
      ((block_until_complete reply).2 = Except.ok () ↔ pyStrip reply = "1") := by
  refine ⟨rfl, ?_⟩
  unfold block_until_complete
  by_cases h : pyStrip reply = "1" <;> simp [h]

/-- C3: every range-bounded setter, given a value outside its documented
bound, fails with the out-of-range assertion message and issues zero
operations on the transport (validation strictly precedes any I/O). -/
theorem setters_reject_out_of_range :
    (∀ q : ℚ, ¬((100 ≤ q ∧ q ≤ 3200000000) ∨ q = 0) →
      span_set q = ([], Except.error "Span must be between 100 Hz and 3.2 GHz or 0")) ∧
    (∀ q : ℚ, ¬(0 ≤ q ∧ q ≤ 51) →
      attenuation_set q = ([], Except.error "Attenuation must be between 0 and 51 dB")) ∧
    (∀ q : ℚ, ¬(-100 ≤ q ∧ q ≤ 30) →
      ref_level_set q = ([], Except.error "Level must be between -100 and 30 dBm")) ∧
    (∀ q : ℚ, ¬(sweepTimeLo ≤ q ∧ q ≤ 1500) →
      sweep_time_set q = ([], Except.error "Time must be between 450us and 1.5ks")) ∧
    (∀ q : ℚ, ¬(0 ≤ q ∧ q ≤ 3200000000) →
      freq_center_set q = ([], Except.error "Center frequency must be between 0 and 3.2 GHz")) ∧
    (∀ q : ℚ, ¬(0 ≤ q ∧ q ≤ 3200000000) →
      freq_stop_set q = ([], Except.error "Stop frequency must be between 0 and 3.2 GHz")) ∧
    (∀ (t : Nat) (k : Int), ¬(1 ≤ k ∧ k ≤ 999) →
      averages_set t k = ([], Except.error "n must be between 1 and 999")) := by
  refine ⟨?_, ?_, ?_, ?_, ?_, ?_, ?_⟩ <;> intros <;>
    simp_all [span_set, attenuation_set, ref_level_set, sweep_time_set,
      freq_center_set, freq_stop_set, averages_set]

theorem setters_reject_out_of_range_witness :
    span_set 99 = ([], Except.error "Span must be between 100 Hz and 3.2 GHz or 0") ∧
    attenuation_set 52 = ([], Except.error "Attenuation must be between 0 and 51 dB") ∧
    ref_level_set 31 = ([], Except.error "Level must be between -100 and 30 dBm") ∧
    sweep_time_set 1501 = ([], Except.error "Time must be between 450us and 1.5ks") ∧
    freq_center_set (-1) = ([], Except.error "Center frequency must be between 0 and 3.2 GHz") ∧
    freq_stop_set 3200000001 = ([], Except.error "Stop frequency must be between 0 and 3.2 GHz") ∧
    averages_set 1 1000 = ([], Except.error "n must be between 1 and 999") :=
  ⟨setters_reject_out_of_range.1 99 (by decide),
   setters_reject_out_of_range.2.1 52 (by decide),
   setters_reject_out_of_range.2.2.1 31 (by decide),
   setters_reject_out_of_range.2.2.2.1 1501 (by decide),
   setters_reject_out_of_range.2.2.2.2.1 (-1) (by decide),
   setters_reject_out_of_range.2.2.2.2.2.1 3200000001 (by decide),
   setters_reject_out_of_range.2.2.2.2.2.2 1 1000 (by decide)⟩

/-- C4: the span setter accepts exactly 0 together with the inclusive
range 100 to 3200000000 Hz, and the attenuation setter accepts exactly
the inclusive range 0 to 51 dB; everything else is rejected. -/
theorem span_attenuation_accept_iff :
    (∀ q : ℚ, (span_set q).2 = Except.ok () ↔
      (q = 0 ∨ (100 ≤ q ∧ q ≤ 3200000000))) ∧
    (∀ q : ℚ, (attenuation_set q).2 = Except.ok () ↔ (0 ≤ q ∧ q ≤ 51)) := by
  constructor
  · intro q
    constructor
    · intro hok
      by_cases h : (100 ≤ q ∧ q ≤ 3200000000) ∨ q = 0
      · tauto
      · rw [span_set, if_neg h] at hok
        exact absurd hok (by simp)
    · intro h
      have hcond : (100 ≤ q ∧ q ≤ 3200000000) ∨ q = 0 := by tauto
      rw [span_set, if_pos hcond]
  · intro q
    by_cases h : 0 ≤ q ∧ q ≤ 51 <;> simp [attenuation_set, h]

/-- C5: each channel selector rejects every out-of-range index with its
assertion message and issues zero operations on the transport: the PSU
selector rejects every integer other than 1 and 2, the trace selector
every integer outside 1..4, and the marker selector every integer outside
1..8. -/
theorem selectors_reject_out_of_range :
    (∀ c : Int, ¬(c = 1 ∨ c = 2) →
      psu_getitem c = ([], Except.error "Channel must be either 1 or 2")) ∧
    (∀ t : Int, ¬(1 ≤ t ∧ t ≤ 4) →
      sa_trace t = ([], Except.error "Trace is either 1,2,3, or 4")) ∧
    (∀ m : Int, ¬(1 ≤ m ∧ m ≤ 8) →
      sa_marker m = ([], Except.error "Marker number is 1-8")) := by
  refine ⟨?_, ?_, ?_⟩ <;> intros <;>
    simp_all [psu_getitem, sa_trace, sa_marker]

theorem selectors_reject_out_of_range_witness :
    psu_getitem 3 = ([], Except.error "Channel must be either 1 or 2") ∧
    sa_trace 5 = ([], Except.error "Trace is either 1,2,3, or 4") ∧
    sa_marker 9 = ([], Except.error "Marker number is 1-8") :=
  ⟨selectors_reject_out_of_range.1 3 (by decide),
   selectors_reject_out_of_range.2.1 5 (by decide),
   selectors_reject_out_of_range.2.2 9 (by decide)⟩

/-- C6 (code evaluation): selecting a valid PSU channel issues the
channel-select command as a `query` operation — one that sends the
command and then reads a reply — not as a `write` with no reply as the
claim states.  The source line is `self._resource.query(f"INST CH...")`
(src/siglent/power_supplies.py line 8). -/
theorem psu_select_issues_query :
    psu_getitem 1 = ([Op.query "INST CH1"], Except.ok ()) ∧
    psu_getitem 2 = ([Op.query "INST CH2"], Except.ok ()) :=
  ⟨rfl, rfl⟩

/-- C7 (code evaluation): writing any member and reading back the stored
token round-trips for resolution bandwidth, video bandwidth, average
type, trace mode and marker mode; but for detection mode the setter
raises `AttributeError` (it reads the never-assigned `self.resource`,
line 313) before writing anything, so the claimed round-trip fails for
every detection-mode member. -/
theorem enum_roundtrips_and_detection_failure :
    (∀ b : Bandwidth, rbw_roundtrip b = Except.ok b) ∧
    (∀ b : Bandwidth, vbw_roundtrip b = Except.ok b) ∧
    (∀ t : AverageType, average_type_roundtrip t = Except.ok t) ∧
    (∀ (n : Nat) (m : TraceMode), trace_mode_roundtrip n m = Except.ok m) ∧
    (∀ (n : Nat) (m : MarkerMode), marker_mode_roundtrip n m = Except.ok m) ∧
    (∀ (n : Nat) (m : DetectionMode),
      detection_mode_roundtrip n m = Except.error traceAttrErr) := by
  refine ⟨?_, ?_, ?_, ?_, ?_, ?_⟩
  · intro b; cases b <;> rfl
  · intro b; cases b <;> rfl
  · intro t; cases t <;> rfl
  · intro n m; cases m <;> rfl
  · intro n m; cases m <;> rfl
  · intro n m; rfl

/-- A value outside the closed wire-value set has no `Bandwidth`
member. -/
theorem Bandwidth.ofValue_eq_none_of_not_mem (v : ℚ)
    (hv : v ∉ bandwidthWireValues) : Bandwidth.ofValue v = none := by
  simp [bandwidthWireValues] at hv
  obtain ⟨a1, a2, a3, a4, a5, a6, a7, a8, a9, a10, a11, a12⟩ := hv
  simp [Bandwidth.ofValue, a1, a2, a3, a4, a5, a6, a7, a8, a9, a10, a11, a12]

/-- A value inside the closed wire-value set parses to some `Bandwidth`
member. -/
theorem Bandwidth.ofValue_ne_none_of_mem (v : ℚ)
    (hv : v ∈ bandwidthWireValues) : Bandwidth.ofValue v ≠ none := by
  simp [bandwidthWireValues] at hv
  rcases hv with rfl | rfl | rfl | rfl | rfl | rfl | rfl | rfl | rfl | rfl |
    rfl | rfl <;> decide

/-- A token outside the closed token set has no `AverageType` member. -/
theorem averageType_token_eq_none_of_not_mem (s : String)
    (hs : s ∉ averageTypeTokens) : AverageType.ofToken s = none := by
  simp [averageTypeTokens] at hs
  obtain ⟨a1, a2, a3⟩ := hs
  simp [AverageType.ofToken, a1, a2, a3]

/-- A token inside the closed token set parses to some `AverageType`
member. -/
theorem averageType_token_ne_none_of_mem (s : String)
    (hs : s ∈ averageTypeTokens) : AverageType.ofToken s ≠ none := by
  simp [averageTypeTokens] at hs
  rcases hs with rfl | rfl | rfl <;> decide

/-- A token outside the closed token set has no `TraceMode` member. -/
theorem traceMode_token_eq_none_of_not_mem (s : String)
    (hs : s ∉ traceModeTokens) : TraceMode.ofToken s = none := by
  simp [traceModeTokens] at hs
  obtain ⟨a1, a2, a3, a4, a5⟩ := hs
  simp [TraceMode.ofToken, a1, a2, a3, a4, a5]

/-- A token inside the closed token set parses to some `TraceMode`
member. -/
theorem traceMode_token_ne_none_of_mem (s : String)
    (hs : s ∈ traceModeTokens) : TraceMode.ofToken s ≠ none := by
  simp [traceModeTokens] at hs
  rcases hs with rfl | rfl | rfl | rfl | rfl <;> decide

/-- A token outside the closed token set has no `DetectionMode`
member. -/
theorem detectionMode_token_eq_none_of_not_mem (s : String)
    (hs : s ∉ detectionModeTokens) : DetectionMode.ofToken s = none := by
  simp [detectionModeTokens] at hs
  obtain ⟨a1, a2, a3, a4, a5, a6⟩ := hs
  simp [DetectionMode.ofToken, a1, a2, a3, a4, a5, a6]

/-- A token inside the closed token set parses to some `DetectionMode`
member. -/
theorem detectionMode_token_ne_none_of_mem (s : String)
    (hs : s ∈ detectionModeTokens) : DetectionMode.ofToken s ≠ none := by
  simp [detectionModeTokens] at hs
  rcases hs with rfl | rfl | rfl | rfl | rfl | rfl <;> decide

/-- A token outside the closed token set has no `MarkerMode` member. -/
theorem markerMode_token_eq_none_of_not_mem (s : String)
    (hs : s ∉ markerModeTokens) : MarkerMode.ofToken s = none := by
  simp [markerModeTokens] at hs
  obtain ⟨a1, a2, a3, a4⟩ := hs
  simp [MarkerMode.ofToken, a1, a2, a3, a4]

/-- A token inside the closed token set parses to some `MarkerMode`
member. -/
theorem markerMode_token_ne_none_of_mem (s : String)
    (hs : s ∈ markerModeTokens) : MarkerMode.ofToken s ≠ none := by
  simp [markerModeTokens] at hs
  rcases hs with rfl | rfl | rfl | rfl <;> decide

/-- C8: every enumerated-setting getter fails with the enum parse error
exactly when the instrument reply is outside the closed set for its
setting: the resolution- and video-bandwidth getters error iff the
float-parsed reply is not one of the twelve wire values, and the
average-type, trace-mode, detection-mode and marker-mode getters error
iff the stripped reply is not one of their listed tokens; a successful
read only ever returns a member of the enumerated set. -/
theorem getters_reject_unknown_tokens :
    (∀ v : ℚ, (rbw_get v).2 = Except.error enumParseErr ↔
      v ∉ bandwidthWireValues) ∧
    (∀ v : ℚ, (vbw_get v).2 = Except.error enumParseErr ↔
      v ∉ bandwidthWireValues) ∧
    (∀ s : String, (average_type_get s).2 = Except.error enumParseErr ↔
      pyStrip s ∉ averageTypeTokens) ∧
    (∀ (n : Nat) (s : String),
      (trace_mode_get n s).2 = Except.error enumParseErr ↔
      pyStrip s ∉ traceModeTokens) ∧
    (∀ (n : Nat) (s : String),
      (detection_mode_get n s).2 = Except.error enumParseErr ↔
      pyStrip s ∉ detectionModeTokens) ∧
    (∀ s : String, marker_mode_parse s = Except.error enumParseErr ↔
      pyStrip s ∉ markerModeTokens) ∧
    (∀ (n : Nat) (s : String),
      (marker_mode_get n s).2 = Except.error enumParseErr ↔
      pyStrip s ∉ markerModeTokens) := by
  refine ⟨?_, ?_, ?_, ?_, ?_, ?_, ?_⟩
  · intro v
    rcases h : Bandwidth.ofValue v with _ | b
    · simp [rbw_get, h]
      intro hv
      exact Bandwidth.ofValue_ne_none_of_mem v hv h
    · simp [rbw_get, h]
      by_contra hv
      have hnone := Bandwidth.ofValue_eq_none_of_not_mem v hv
      rw [h] at hnone
      exact Option.noConfusion hnone
  · intro v
    rcases h : Bandwidth.ofValue v with _ | b
    · simp [vbw_get, h]
      intro hv
      exact Bandwidth.ofValue_ne_none_of_mem v hv h
    · simp [vbw_get, h]
      by_contra hv
      have hnone := Bandwidth.ofValue_eq_none_of_not_mem v hv
      rw [h] at hnone
      exact Option.noConfusion hnone
  · intro s
    rcases h : AverageType.ofToken (pyStrip s) with _ | t
    · simp [average_type_get, h]
      intro hv
      exact averageType_token_ne_none_of_mem (pyStrip s) hv h
    · simp [average_type_get, h]
      by_contra hv
      have hnone := averageType_token_eq_none_of_not_mem (pyStrip s) hv
      rw [h] at hnone
      exact Option.noConfusion hnone
  · intro n s
    rcases h : TraceMode.ofToken (pyStrip s) with _ | m
    · simp [trace_mode_get, h]
      intro hv
      exact traceMode_token_ne_none_of_mem (pyStrip s) hv h
    · simp [trace_mode_get, h]
      by_contra hv
      have hnone := traceMode_token_eq_none_of_not_mem (pyStrip s) hv
      rw [h] at hnone
      exact Option.noConfusion hnone
  · intro n s
    rcases h : DetectionMode.ofToken (pyStrip s) with _ | m
    · simp [detection_mode_get, h]
      intro hv
      exact detectionMode_token_ne_none_of_mem (pyStrip s) hv h
    · simp [detection_mode_get, h]
      by_contra hv
      have hnone := detectionMode_token_eq_none_of_not_mem (pyStrip s) hv
      rw [h] at hnone
      exact Option.noConfusion hnone
  · intro s
    rcases h : MarkerMode.ofToken (pyStrip s) with _ | m
    · simp [marker_mode_parse, h]
      intro hv
      exact markerMode_token_ne_none_of_mem (pyStrip s) hv h
    · simp [marker_mode_parse, h]
      by_contra hv
      have hnone := markerMode_token_eq_none_of_not_mem (pyStrip s) hv
      rw [h] at hnone
      exact Option.noConfusion hnone
  · intro n s
    rcases h : MarkerMode.ofToken (pyStrip s) with _ | m
    · simp [marker_mode_get, h]
      intro hv
      exact markerMode_token_ne_none_of_mem (pyStrip s) hv h
    · simp [marker_mode_get, h]
      by_contra hv
      have hnone := markerMode_token_eq_none_of_not_mem (pyStrip s) hv
      rw [h] at hnone
      exact Option.noConfusion hnone

/-- C9 (code evaluation): the detection-mode setter never issues the
write command the claim describes: its body reads `self.resource`, an
attribute that `Trace.__init__` never assigns, so Python raises
`AttributeError` and zero operations reach the transport, for every trace
index and every detection-mode member. -/
theorem detection_mode_setter_attr_bug :
    ∀ (n : Nat) (mode : DetectionMode),
      detection_mode_set n mode = ([], Except.error traceAttrErr) := by
  intro n mode
  rfl

/-- C1: for a trace index in 1..4, reading the trace data first restarts
the sweep, then blocks on `*OPC?`, and only then issues the binary query
for 751 points; the returned sequence is exactly the headerless
little-endian decode of the payload and has exactly 751 elements. -/
theorem trace_data_spec (n : Nat) (_hn : 1 ≤ n ∧ n ≤ 4) (opcReply : String)
    (hopc : pyStrip opcReply = "1") (payload ws : List Nat)
    (hdec : decodeWordsLE NUM_DATA_POINTS payload = some ws) :
    trace_data n opcReply payload =
      ([Op.write ":INIT:REST", Op.query "*OPC?",
        Op.queryBinary (tracDataCmd n) NUM_DATA_POINTS], Except.ok ws) ∧
      ws.length = 751 := by
  refine ⟨?_, decodeWordsLE_length _ _ _ hdec⟩
  unfold trace_data
  rw [if_pos hopc, hdec]

/-- Decoding an all-zero payload of the right length yields all-zero
words; used to instantiate the trace-read theorem on a concrete
payload. -/
theorem decodeWordsLE_replicate_zero (n : Nat) :
    decodeWordsLE n (List.replicate (8 * n) 0) = some (List.replicate n 0) := by
  induction n with
  | zero => rfl
  | succ k ih =>
      rw [decodeWordsLE, if_pos (by rw [List.length_replicate]; omega)]
      rw [List.drop_replicate, List.take_replicate]
      have h1 : 8 * (k + 1) - 8 = 8 * k := by omega
      have h2 : min 8 (8 * (k + 1)) = 8 := by omega
      rw [h1, h2, ih]
      simp [wordOfBytesLE, List.replicate_succ]

theorem trace_data_spec_witness :
    trace_data 1 "1" (List.replicate 6008 0) =
      ([Op.write ":INIT:REST", Op.query "*OPC?",
        Op.queryBinary (tracDataCmd 1) NUM_DATA_POINTS],
        Except.ok (List.replicate 751 0)) ∧
      (List.replicate 751 0).length = 751 :=
  trace_data_spec 1 (by decide) "1" (by rfl) (List.replicate 6008 0)
    (List.replicate 751 0) (decodeWordsLE_replicate_zero 751)

/-- C10: after the `Marker` class body executes, the property bound to
the name `trace` has the `enabled` getter: reading it issues the
marker-state query `:CALC:MARK n :STAT?` (not the trace-association query
`:CALC:MARK n :TRAC?`) and returns the reply parsed as the boolean
enabled flag; the setter installed beside it is the trace setter, because
the function at lines 382-385 is decorated `@enabled.setter`. -/
theorem marker_trace_reads_enabled_state (n : Nat) (_hn : 1 ≤ n ∧ n ≤ 8)
    (reply : String) (i : Int) (hi : pyInt reply = some i) :
    ∃ p : PyProperty, markerClassDict.lookup "trace" = some p ∧
      p.fget n reply =
        ([Op.query (":CALC:MARK" ++ toString n ++ ":STAT?")],
          Except.ok (MarkerRead.bool (i == 1))) ∧
      p.fset = some MarkerSetterTag.traceSet := by
  refine ⟨_, rfl, ?_, rfl⟩
  show marker_enabled_get n reply = _
  unfold marker_enabled_get
  rw [hi]

theorem marker_trace_reads_enabled_state_witness :
    ∃ p : PyProperty, markerClassDict.lookup "trace" = some p ∧
      p.fget 1 "2" =
        ([Op.query (":CALC:MARK" ++ toString 1 ++ ":STAT?")],
          Except.ok (MarkerRead.bool ((2 : Int) == 1))) ∧
      p.fset = some MarkerSetterTag.traceSet :=
  marker_trace_reads_enabled_state 1 (by decide) "2" 2 (by rfl)

end Siglent




